import Mathlib

/-!
Shallow embedding of the Valthrun overlay core (src/overlay/src/lib.rs):
the window-style model, the activation tracker (`OverlayActiveTracker`),
the event-loop handler of `System::main_loop`, the `init` routine and
`show_error_message`.  Machine integers (the Win32 `isize` extended style
word) are modelled as `Nat` values below `2 ^ 64`; bitwise complement is
taken relative to the 64-bit mask, matching `!(WS_EX_NOACTIVATE.0 as isize)`.
-/

namespace Overlay

/-- Win32 extended style bit `WS_EX_TRANSPARENT` (input passes through). -/
def WS_EX_TRANSPARENT : Nat := 0x00000020

/-- Win32 extended style bit `WS_EX_TOOLWINDOW`. -/
def WS_EX_TOOLWINDOW : Nat := 0x00000080

/-- Win32 extended style bit `WS_EX_LAYERED`. -/
def WS_EX_LAYERED : Nat := 0x00080000

/-- Win32 extended style bit `WS_EX_NOACTIVATE`. -/
def WS_EX_NOACTIVATE : Nat := 0x08000000

/-- The 64-bit word of `!(WS_EX_NOACTIVATE.0 as isize)`: every bit of the
64-bit word except bit 27. -/
def NOT_WS_EX_NOACTIVATE : Nat := (2 ^ 64 - 1) ^^^ WS_EX_NOACTIVATE

/-- Win32 style bit `WS_POPUP`. -/
def WS_POPUP : Nat := 0x80000000

/-- Win32 style bit `WS_VISIBLE`. -/
def WS_VISIBLE : Nat := 0x10000000

/-- Win32 style bit `WS_CLIPSIBLINGS`. -/
def WS_CLIPSIBLINGS : Nat := 0x04000000

/-- Style written by `init` (lib.rs lines 129-133):
`WS_POPUP | WS_VISIBLE | WS_CLIPSIBLINGS`. -/
def WS_POPUP_VISIBLE_CLIPSIBLINGS : Nat :=
  WS_POPUP ||| WS_VISIBLE ||| WS_CLIPSIBLINGS

/-- Extended style written by `init` (line 134-139 of lib.rs):
`WS_EX_LAYERED | WS_EX_TRANSPARENT | WS_EX_TOOLWINDOW | WS_EX_NOACTIVATE`. -/
def initialExStyle : Nat :=
  WS_EX_LAYERED ||| WS_EX_TRANSPARENT ||| WS_EX_TOOLWINDOW ||| WS_EX_NOACTIVATE

/-- The fields of the imgui `Io` that `OverlayActiveTracker::update` reads. -/
structure Io where
  want_capture_mouse : Bool
  want_capture_keyboard : Bool
deriving DecidableEq, Repr

/-- The combined capture signal `io.want_capture_mouse | io.want_capture_keyboard`. -/
def Io.active (io : Io) : Bool :=
  io.want_capture_mouse || io.want_capture_keyboard

/-- State of `OverlayActiveTracker` (lib.rs lines 168-170). -/
structure OverlayActiveTracker where
  currently_active : Bool
deriving DecidableEq, Repr

/-- Constructor `OverlayActiveTracker::new` (lib.rs line 173). -/
def OverlayActiveTracker.new : OverlayActiveTracker :=
  { currently_active := false }

/-- Observable OS / hook calls issued by the event handler, recorded as a trace. -/
inductive Action where
  /-- `platform.prepare_frame` returned with the given success flag. -/
  | prepareFrame (ok : Bool)
  /-- A `log::error!` invocation. -/
  | logError
  /-- The call `input_system.update(window, imgui.io_mut())`. -/
  | inputUpdate
  /-- The call `active_tracker.update(window, imgui.io())`. -/
  | activeTrackerUpdate
  /-- `GetWindowLongPtrA(hwnd, GWL_EXSTYLE)` inside the tracker. -/
  | trackerGetStyle
  /-- `SetWindowLongPtrA(hwnd, GWL_EXSTYLE, style)` inside the tracker. -/
  | trackerSetStyle (style : Nat)
  /-- `SetActiveWindow(hwnd)` inside the tracker. -/
  | setActiveWindow
  /-- The call `window_tracker.update(window)`. -/
  | windowTrackerUpdate
  /-- The update hook returned `r`. -/
  | updateHookCall (r : Bool)
  /-- `window.request_redraw()`. -/
  | requestRedraw
  /-- The render hook returned `r`. -/
  | renderHookCall (r : Bool)
  /-- `target.clear_all((0,0,0,0), 0, 0)`. -/
  | clearTarget
  /-- `platform.prepare_render(ui, window)`. -/
  | prepareRender
  /-- `renderer.render(&mut target, draw_data)` returned with success flag `ok`. -/
  | renderSubmit (ok : Bool)
  /-- `target.finish()` returned with success flag `ok`. -/
  | swapBuffers (ok : Bool)
  /-- `ShowWindow(hwnd, SW_SHOW)`. -/
  | showWindow
  /-- `platform.handle_event(io, window, event)` (fallback arm). -/
  | platformHandleEvent
deriving DecidableEq, Repr

/-- Embedding of `OverlayActiveTracker::update` (lib.rs lines 177-199).
Takes the tracker state, the current extended style word of the window,
and the imgui io; returns the new tracker state, the new extended style,
and the trace of OS calls issued. -/
def OverlayActiveTracker.update (t : OverlayActiveTracker) (exStyle : Nat)
    (io : Io) : OverlayActiveTracker × Nat × List Action :=
  let window_active := io.active
  if window_active = t.currently_active then
    (t, exStyle, [])
  else
    let style := exStyle
    let style := if window_active
      then style &&& NOT_WS_EX_NOACTIVATE
      else style ||| WS_EX_NOACTIVATE
    ({ currently_active := window_active }, style,
      [.trackerGetStyle, .trackerSetStyle style] ++
        (if window_active then [.setActiveWindow] else []))

/-- The winit events that the closure of `System::main_loop` matches on
(lib.rs lines 223-289). `other` stands for any event hitting the fallback
arm; `closeRequested` is `WindowEvent::CloseRequested`. -/
inductive Event where
  | newEvents
  | mainEventsCleared
  | redrawRequested
  | closeRequested
  | other
deriving DecidableEq, Repr

/-- The winit `ControlFlow` values the loop writes. -/
inductive ControlFlow where
  | poll
  | exit
  | exitWithCode (code : Int)
deriving DecidableEq, Repr

/-- Environment of the loop closure: the outcome of each fallible call and
each hook, indexed by invocation count.  `prepareFail n` tells whether the
nth `platform.prepare_frame` errors, `ioSample n` is the imgui io observed
by the nth `MainEventsCleared`, `updateHook n` / `renderHook n` are the hook
return values, `renderFail n` / `swapFail n` tell whether the nth paint's
`renderer.render` / `target.finish` errors. -/
structure LoopParams where
  prepareFail : Nat → Bool
  ioSample : Nat → Io
  updateHook : Nat → Bool
  renderHook : Nat → Bool
  renderFail : Nat → Bool
  swapFail : Nat → Bool

/-- Mutable state captured by the `event_loop.run` closure
(lib.rs lines 217-221) together with the window's extended style word and
the invocation counters that index into `LoopParams`. -/
structure LoopState where
  tracker : OverlayActiveTracker
  exStyle : Nat
  initial_render : Bool
  control_flow : ControlFlow
  frameCount : Nat
  paintCount : Nat
deriving DecidableEq, Repr

/-- Loop state at entry of `event_loop.run` (lib.rs lines 217-221): a fresh
tracker, the extended style written by `init`, `initial_render = true`. -/
def initState : LoopState :=
  { tracker := OverlayActiveTracker.new
    exStyle := initialExStyle
    initial_render := true
    control_flow := .poll
    frameCount := 0
    paintCount := 0 }

/-- Embedding of one dispatch of the `event_loop.run` closure
(lib.rs lines 223-289): given the environment, the captured state and the
event, returns the updated state and the trace of calls issued. -/
def handleEvent (p : LoopParams) (s : LoopState) : Event → LoopState × List Action
  | .newEvents => (s, [])
  | .mainEventsCleared =>
    if p.prepareFail s.frameCount then
      ({ s with control_flow := .exitWithCode 1, frameCount := s.frameCount + 1 },
        [.prepareFrame false, .logError])
    else
      let io := p.ioSample s.frameCount
      let (t, style, trackerActs) := s.tracker.update s.exStyle io
      let pre : List Action :=
        [.prepareFrame true, .inputUpdate, .activeTrackerUpdate] ++ trackerActs ++
          [.windowTrackerUpdate]
      if p.updateHook s.frameCount then
        ({ s with tracker := t, exStyle := style, frameCount := s.frameCount + 1 },
          pre ++ [.updateHookCall true, .requestRedraw])
      else
        ({ s with
            tracker := t
            exStyle := style
            control_flow := ControlFlow.exit
            frameCount := s.frameCount + 1 },
          pre ++ [.updateHookCall false])
  | .redrawRequested =>
    let r := p.renderHook s.paintCount
    let headActs : List Action := [.renderHookCall r, .clearTarget, .prepareRender]
    let (run, paintActs) :=
      if p.renderFail s.paintCount then
        (false, headActs ++ [.renderSubmit false, .logError])
      else if p.swapFail s.paintCount then
        (false, headActs ++ [.renderSubmit true, .swapBuffers false, .logError])
      else
        (r, headActs ++ [.renderSubmit true, .swapBuffers true])
    let cf := if run then s.control_flow else .exit
    let (ir, showActs) :=
      if s.initial_render then (false, [Action.showWindow]) else (false, [])
    ({ s with
        control_flow := cf
        initial_render := ir
        paintCount := s.paintCount + 1 },
      paintActs ++ showActs)
  | .closeRequested => ({ s with control_flow := .exit }, [])
  | .other => (s, [.platformHandleEvent])

/-- Run of the loop over a finite schedule of delivered events: events are
dispatched in order until the control flow leaves `poll` (the loop then
exits and delivers nothing further).  Returns the final state and the
concatenated trace. -/
def runEvents (p : LoopParams) (s : LoopState) : List Event → LoopState × List Action
  | [] => (s, [])
  | e :: es =>
    if s.control_flow = .poll then
      let (s1, acts) := handleEvent p s e
      let (s2, rest) := runEvents p s1 es
      (s2, acts ++ rest)
    else
      (s, [])

/-- Error type of the overlay crate (`error::OverlayError`).  The module
`error.rs` is not part of the provided sources; the variants are those used
in lib.rs (`NoMonitorAvailable`, `DisplayError`, `RenderError`, the windows
error of `DwmEnableBlurBehindWindow?`) plus the error of
`WindowTracker::new`, modelled from the spec as a NotFound-class condition.
Payloads are abstracted to `Nat` codes. -/
inductive OverlayError where
  | windowNotFound
  | noMonitorAvailable
  | displayError (e : Nat)
  | windowsError (e : Nat)
  | renderError (e : Nat)
deriving DecidableEq, Repr

/-- Observable construction steps of `init`, recorded as a trace to state
"before any window / event loop / graphics context is created". -/
inductive InitAction where
  /-- `WindowTracker::new(target_window)` returned with success flag `ok`. -/
  | windowTrackerNew (ok : Bool)
  /-- `EventLoop::new()`. -/
  | createEventLoop
  /-- `Display::new(builder, context, &event_loop)` attempted: this is the
  call that creates the native window and the graphics context. -/
  | createDisplay (ok : Bool)
  /-- `log::warn!` on clipboard initialization failure. -/
  | logWarn
  /-- `SetWindowLongA(hwnd, GWL_STYLE, ...)`. -/
  | setStyle (style : Nat)
  /-- `SetWindowLongPtrA(hwnd, GWL_EXSTYLE, ...)`. -/
  | setExStyle (style : Nat)
  /-- `DwmEnableBlurBehindWindow(hwnd, &bb)` returned with success flag `ok`. -/
  | dwmBlurBehind (ok : Bool)
  /-- `SetWindowPos(hwnd, HWND_TOPMOST, ...)`. -/
  | setTopmost
  /-- `Renderer::init(&mut imgui, &display)` returned with success flag `ok`. -/
  | rendererInit (ok : Bool)
deriving DecidableEq, Repr

/-- Host environment `init` runs against: whether the target window exists,
which monitors are present, and the outcome of each fallible call. -/
structure InitEnv where
  /-- Whether a window with the requested target title exists. -/
  targetWindowFound : Bool
  /-- `event_loop.primary_monitor()`, as an abstract monitor id. -/
  primaryMonitor : Option Nat
  /-- `event_loop.available_monitors()`, as abstract monitor ids. -/
  availableMonitors : List Nat
  /-- Whether `Display::new` fails, and its error code. -/
  displayFails : Bool
  displayErrCode : Nat
  /-- Whether `ClipboardContext::new` fails. -/
  clipboardFails : Bool
  /-- Whether `DwmEnableBlurBehindWindow` fails, and its error code. -/
  dwmFails : Bool
  dwmErrCode : Nat
  /-- Whether `Renderer::init` fails, and its error code. -/
  rendererFails : Bool
  rendererErrCode : Nat
deriving DecidableEq, Repr

/-- Modelled from the spec: the Target Window Tracker constructor
`WindowTracker::new(window_title) -> instance | NotFound error`.  The
module `window_tracker.rs` is not part of the provided sources; per the
spec it fails with a NotFound-class error when no window with the given
title exists, and otherwise returns an instance. -/
def WindowTracker.new (env : InitEnv) : Except OverlayError Unit :=
  if env.targetWindowFound then .ok () else .error .windowNotFound

/-- Result of a successful `init`: the monitor chosen and the style words
written to the overlay window. -/
structure SystemModel where
  monitor : Nat
  exStyle : Nat
deriving DecidableEq, Repr

/-- Embedding of `init` (lib.rs lines 58-164): runs the construction steps
in source order against the environment, short-circuiting on the first
error exactly where the source's `?` / `ok_or` / `map_err` do, and records
the trace of construction steps. -/
def init (env : InitEnv) : Except OverlayError SystemModel × List InitAction :=
  match WindowTracker.new env with
  | .error e => (.error e, [.windowTrackerNew false])
  | .ok _ =>
    let tr0 : List InitAction := [.windowTrackerNew true, .createEventLoop]
    match env.primaryMonitor <|> env.availableMonitors.head? with
    | none => (.error .noMonitorAvailable, tr0)
    | some monitor =>
      if env.displayFails then
        (.error (.displayError env.displayErrCode), tr0 ++ [.createDisplay false])
      else
        let tr1 := tr0 ++ [.createDisplay true] ++
          (if env.clipboardFails then [InitAction.logWarn] else []) ++
          [.setStyle WS_POPUP_VISIBLE_CLIPSIBLINGS, .setExStyle initialExStyle]
        if env.dwmFails then
          (.error (.windowsError env.dwmErrCode), tr1 ++ [.dwmBlurBehind false])
        else
          let tr2 := tr1 ++ [.dwmBlurBehind true, .setTopmost]
          if env.rendererFails then
            (.error (.renderError env.rendererErrCode), tr2 ++ [.rendererInit false])
          else
            (.ok { monitor := monitor, exStyle := initialExStyle },
              tr2 ++ [.rendererInit true])

/-- Rust `CString::new` over a byte string: fails with `NulError` (here
`none`) when the bytes contain an interior NUL, otherwise appends the
terminating NUL. -/
def cstringNew (bytes : List Nat) : Option (List Nat) :=
  if 0 ∈ bytes then none else some (bytes ++ [0])

/-- Byte string of the placeholder literal `"[[ NulError ]]"`. -/
def nulErrorPlaceholder : List Nat :=
  "[[ NulError ]]".toList.map Char.toNat

/-- The arguments passed to `MessageBoxA`. -/
structure MessageBox where
  text : List Nat
  caption : List Nat
  flags : Nat
deriving DecidableEq, Repr

/-- Win32 `MB_ICONERROR`. -/
def MB_ICONERROR : Nat := 0x00000010

/-- Win32 `MB_OK`. -/
def MB_OK : Nat := 0x00000000

/-- Embedding of `show_error_message` (lib.rs lines 35-46).  Rust panics
(`unwrap` on `none`) are modelled by `none`; `some box` means the message
box is displayed with those arguments.  Note `MessageBoxA` receives the
message as text and the title as caption. -/
def show_error_message (title message : List Nat) : Option MessageBox := do
  let title ← (cstringNew title).orElse fun _ => cstringNew nulErrorPlaceholder
  let message ← (cstringNew message).orElse fun _ => cstringNew nulErrorPlaceholder
  pure { text := message, caption := title, flags := MB_ICONERROR ||| MB_OK }

/-- Iterated `OverlayActiveTracker::update` over a finite sequence of
per-frame io samples, threading the tracker state and the window's
extended style and concatenating the OS-call traces. -/
def runTracker (t : OverlayActiveTracker) (ex : Nat) :
    List Io → OverlayActiveTracker × Nat × List Action
  | [] => (t, ex, [])
  | io :: ios =>
    let r := t.update ex io
    let rest := runTracker r.1 r.2.1 ios
    (rest.1, rest.2.1, r.2.2 ++ rest.2.2)

/-- Number of actual value changes in a sampled capture sequence, relative
to the previous value `prev`. -/
def countChanges (prev : Bool) : List Io → Nat
  | [] => 0
  | io :: ios => (if io.active = prev then 0 else 1) + countChanges io.active ios

/-- Whether an action is the style-modification call
`SetWindowLongPtrA(hwnd, GWL_EXSTYLE, _)` of the tracker. -/
def Action.isSetStyle : Action → Bool
  | .trackerSetStyle _ => true
  | _ => false

/-- Whether an action marks the start of a paint phase (the render hook
invocation that opens every `RedrawRequested` dispatch). -/
def Action.isPaintStart : Action → Bool
  | .renderHookCall _ => true
  | _ => false

/-- Whether an init step is the `Display::new` attempt (the call that
creates the native window and graphics context). -/
def InitAction.isCreateDisplay : InitAction → Bool
  | .createDisplay _ => true
  | _ => false

/-- Formalization of the ordering claimed by the spec: the activation-state
toggle is executed before the frame's input is delivered to the UI, read on
a trace as the first `active_tracker.update` call occurring strictly before
the first `input_system.update` call. -/
def activationPrecedesInput (tr : List Action) : Prop :=
  tr.indexOf Action.activeTrackerUpdate < tr.indexOf Action.inputUpdate

/-- Loop environment in which every fallible call succeeds, both hooks
always return `true`, and the UI requests mouse capture every frame. -/
def okParams : LoopParams :=
  { prepareFail := fun _ => false
    ioSample := fun _ => { want_capture_mouse := true, want_capture_keyboard := false }
    updateHook := fun _ => true
    renderHook := fun _ => true
    renderFail := fun _ => false
    swapFail := fun _ => false }

/-- Loop environment identical to `okParams` except that every
`renderer.render` call fails. -/
def renderFailParams : LoopParams :=
  { okParams with renderFail := fun _ => true }

/-- Loop environment identical to `okParams` except that the update hook
always returns `false`. -/
def updateStopParams : LoopParams :=
  { okParams with updateHook := fun _ => false }

/-- Host environment in which the target window exists but no monitor is
attached; every other call succeeds. -/
def noMonitorEnv : InitEnv :=
  { targetWindowFound := true
    primaryMonitor := none
    availableMonitors := []
    displayFails := false
    displayErrCode := 0
    clipboardFails := false
    dwmFails := false
    dwmErrCode := 0
    rendererFails := false
    rendererErrCode := 0 }

/-- Host environment with one monitor in which `Display::new` fails with
error code 7. -/
def displayFailEnv : InitEnv :=
  { noMonitorEnv with
    primaryMonitor := some 0
    displayFails := true
    displayErrCode := 7 }

/-- Host environment in which no window with the target title exists. -/
def noTargetEnv : InitEnv :=
  { noMonitorEnv with targetWindowFound := false }

end Overlay

namespace Overlay

theorem update_currently_active (t : OverlayActiveTracker) (ex : Nat) (io : Io) :
    (t.update ex io).1.currently_active = io.active := by
  simp only [OverlayActiveTracker.update]
  split
  · next h => exact h.symm
  · rfl

theorem update_countP_setStyle (t : OverlayActiveTracker) (ex : Nat) (io : Io) :
    ((t.update ex io).2.2).countP Action.isSetStyle =
      if io.active = t.currently_active then 0 else 1 := by
  simp only [OverlayActiveTracker.update]
  split
  · simp
  · split <;> simp [List.countP, List.countP.go, Action.isSetStyle]

theorem update_idem (t : OverlayActiveTracker) (ex : Nat) (io : Io) :
    (((t.update ex io).1).update ((t.update ex io).2.1) io).2.2 = [] := by
  simp [OverlayActiveTracker.update]
  split <;> simp_all

theorem runTracker_last_active (ios : List Io) (t : OverlayActiveTracker) (ex : Nat)
    (io : Io) :
    ((runTracker t ex (ios ++ [io])).1).currently_active = io.active := by
  induction ios generalizing t ex with
  | nil => simp [runTracker, update_currently_active]
  | cons io0 ios ih => simp [runTracker, ih]

theorem runTracker_countP_setStyle (ios : List Io) (t : OverlayActiveTracker) (ex : Nat) :
    ((runTracker t ex ios).2.2).countP Action.isSetStyle =
      countChanges t.currently_active ios := by
  induction ios generalizing t ex with
  | nil => simp [runTracker, countChanges]
  | cons io ios ih =>
    simp [runTracker, countChanges, List.countP_append, update_countP_setStyle,
      ih, update_currently_active]

theorem update_testBit_preserved (t : OverlayActiveTracker) (ex : Nat) (io : Io)
    (b : Nat) (hb : b ≠ 27) (hb64 : b < 64) :
    ((t.update ex io).2.1).testBit b = ex.testBit b := by
  have h2 : WS_EX_NOACTIVATE = 2 ^ 27 := by decide
  have hp : WS_EX_NOACTIVATE.testBit b = false := by
    rw [h2]; exact Nat.testBit_two_pow_of_ne (Ne.symm hb)
  have hm : NOT_WS_EX_NOACTIVATE.testBit b = true := by
    unfold NOT_WS_EX_NOACTIVATE
    rw [h2, Nat.testBit_xor, Nat.testBit_two_pow_sub_one,
      Nat.testBit_two_pow_of_ne (Ne.symm hb)]
    simp [hb64]
  simp only [OverlayActiveTracker.update]
  split
  · rfl
  · split
    · simp [Nat.testBit_and, hm]
    · simp [Nat.testBit_or, hp]

/-- C3: for every finite sequence of per-frame io samples fed to
`OverlayActiveTracker::update`, (a) after each call `currently_active`
equals the most recently sampled combined capture value, (b) starting from
`OverlayActiveTracker::new` the style-modification call
`SetWindowLongPtrA` is issued exactly once per actual value change, and
(c) a second consecutive call with the same desired value issues no
additional OS calls. -/
theorem C3_tracker_tracks_last_sample :
    (∀ (t : OverlayActiveTracker) (ex : Nat) (ios : List Io) (io : Io),
      ((runTracker t ex (ios ++ [io])).1).currently_active = io.active) ∧
    (∀ (ex : Nat) (ios : List Io),
      ((runTracker OverlayActiveTracker.new ex ios).2.2).countP Action.isSetStyle =
        countChanges false ios) ∧
    (∀ (t : OverlayActiveTracker) (ex : Nat) (io : Io),
      (((t.update ex io).1).update ((t.update ex io).2.1) io).2.2 = []) := by
  refine ⟨fun t ex ios io => runTracker_last_active ios t ex io,
    fun ex ios => ?_, fun t ex io => update_idem t ex io⟩
  have h := runTracker_countP_setStyle ios OverlayActiveTracker.new ex
  simpa [OverlayActiveTracker.new] using h

/-- C1 counterexample: on the Inactive→Active transition from the style
written by `init` the update routine does NOT clear the input-transparent
extended style bit `WS_EX_TRANSPARENT`: the bit is still set in the style
word it writes back (the routine toggles `WS_EX_NOACTIVATE` instead). -/
theorem C1_transparent_bit_not_cleared :
    OverlayActiveTracker.new.currently_active = false ∧
    (Io.mk true false).active = true ∧
    ((OverlayActiveTracker.new.update initialExStyle (Io.mk true false)).2.1 &&&
      WS_EX_TRANSPARENT) = WS_EX_TRANSPARENT ∧
    Action.setActiveWindow ∈
      (OverlayActiveTracker.new.update initialExStyle (Io.mk true false)).2.2 := by
  decide

/-- C1 (amended): on every Inactive→Active transition the update routine
clears the no-activate extended style bit (`WS_EX_NOACTIVATE`, bit 27) and
its OS-call trace is exactly read-style, write-style, then
`SetActiveWindow`; on every Active→Inactive transition it sets the
no-activate bit and does not call `SetActiveWindow`. -/
theorem C1_noactivate_bit_toggled (t : OverlayActiveTracker) (ex : Nat) (io : Io) :
    (t.currently_active = false → io.active = true →
      ((t.update ex io).2.1).testBit 27 = false ∧
      (t.update ex io).2.2 =
        [.trackerGetStyle, .trackerSetStyle ((t.update ex io).2.1), .setActiveWindow]) ∧
    (t.currently_active = true → io.active = false →
      ((t.update ex io).2.1).testBit 27 = true ∧
      Action.setActiveWindow ∉ (t.update ex io).2.2) := by
  have hm : NOT_WS_EX_NOACTIVATE.testBit 27 = false := by decide
  have hp : WS_EX_NOACTIVATE.testBit 27 = true := by decide
  constructor
  · intro h1 h2
    simp [OverlayActiveTracker.update, h1, h2, Nat.testBit_and, hm]
  · intro h1 h2
    simp [OverlayActiveTracker.update, h1, h2, Nat.testBit_or, hp]

/-- C1 witness: both transitions of `C1_noactivate_bit_toggled` evaluated
at concrete inputs. -/
theorem C1_noactivate_bit_toggled_witness :
    (((OverlayActiveTracker.mk false).update initialExStyle (Io.mk true false)).2.1).testBit 27
        = false ∧
    (((OverlayActiveTracker.mk true).update initialExStyle (Io.mk false false)).2.1).testBit 27
        = true :=
  ⟨((C1_noactivate_bit_toggled (OverlayActiveTracker.mk false) initialExStyle
      (Io.mk true false)).1 rfl rfl).1,
   ((C1_noactivate_bit_toggled (OverlayActiveTracker.mk true) initialExStyle
      (Io.mk false false)).2 rfl rfl).1⟩

/-- C9: the only extended-style bit `OverlayActiveTracker::update` can
change is bit 27 (`WS_EX_NOACTIVATE`): the transparent-to-input bit 5
(`WS_EX_TRANSPARENT`), the tool-window bit 7 (`WS_EX_TOOLWINDOW`) and the
layered bit 19 (`WS_EX_LAYERED`) of the style word it writes back are
those it read, for every call; in general every bit of the 64-bit style
word other than bit 27 is preserved. -/
theorem C9_only_noactivate_bit_changes (t : OverlayActiveTracker) (ex : Nat) (io : Io) :
    (((t.update ex io).2.1).testBit 5 = ex.testBit 5 ∧
     ((t.update ex io).2.1).testBit 7 = ex.testBit 7 ∧
     ((t.update ex io).2.1).testBit 19 = ex.testBit 19) ∧
    ∀ b : Nat, b ≠ 27 → b < 64 → ((t.update ex io).2.1).testBit b = ex.testBit b := by
  refine ⟨⟨?_, ?_, ?_⟩, fun b hb hb64 => update_testBit_preserved t ex io b hb hb64⟩
  · exact update_testBit_preserved t ex io 5 (by decide) (by decide)
  · exact update_testBit_preserved t ex io 7 (by decide) (by decide)
  · exact update_testBit_preserved t ex io 19 (by decide) (by decide)

/-- C9 witness: bit 5 of the style word is preserved on a concrete
Inactive→Active call. -/
theorem C9_only_noactivate_bit_changes_witness :
    (5 : Nat) ≠ 27 ∧ (5 : Nat) < 64 ∧
    (((OverlayActiveTracker.mk false).update initialExStyle (Io.mk true false)).2.1).testBit 5
      = initialExStyle.testBit 5 :=
  ⟨by decide, by decide,
    (C9_only_noactivate_bit_changes (OverlayActiveTracker.mk false) initialExStyle
      (Io.mk true false)).2 5 (by decide) (by decide)⟩

end Overlay

namespace Overlay

theorem update_show_count (t : OverlayActiveTracker) (ex : Nat) (io : Io) :
    ((t.update ex io).2.2).count Action.showWindow = 0 := by
  simp only [OverlayActiveTracker.update]
  split
  · simp
  · split <;> simp

theorem update_paint_countP (t : OverlayActiveTracker) (ex : Nat) (io : Io) :
    ((t.update ex io).2.2).countP Action.isPaintStart = 0 := by
  simp only [OverlayActiveTracker.update]
  split
  · simp
  · split <;> simp [Action.isPaintStart]

theorem update_no_requestRedraw (t : OverlayActiveTracker) (ex : Nat) (io : Io) :
    Action.requestRedraw ∉ (t.update ex io).2.2 := by
  simp only [OverlayActiveTracker.update]
  split
  · simp
  · split <;> simp

theorem handleEvent_show_count (p : LoopParams) (s : LoopState) (e : Event) :
    ((handleEvent p s e).2).count Action.showWindow =
      if e = Event.redrawRequested ∧ s.initial_render then 1 else 0 := by
  cases e <;> simp only [handleEvent]
  · simp
  · split
    · simp
    · split <;> simp [List.count_append, update_show_count]
  · by_cases hir : s.initial_render = true <;>
      simp only [hir] <;> split <;> split <;> simp_all [List.count_append]
  · simp
  · simp

theorem handleEvent_paint_countP (p : LoopParams) (s : LoopState) (e : Event) :
    ((handleEvent p s e).2).countP Action.isPaintStart =
      if e = Event.redrawRequested then 1 else 0 := by
  cases e <;> simp only [handleEvent]
  · simp
  · split
    · simp [Action.isPaintStart]
    · split <;> simp [List.countP_append, update_paint_countP, Action.isPaintStart]
  · by_cases hir : s.initial_render = true <;>
      simp only [hir] <;> split <;> split <;>
      simp_all [List.countP_append, Action.isPaintStart]
  · simp
  · simp [Action.isPaintStart]

theorem handleEvent_initial_render (p : LoopParams) (s : LoopState) (e : Event) :
    ((handleEvent p s e).1).initial_render =
      (if e = Event.redrawRequested then false else s.initial_render) := by
  cases e <;> simp only [handleEvent]
  · simp
  · split
    · simp
    · split <;> simp
  · by_cases hir : s.initial_render = true <;> simp [hir]
  · simp
  · simp

theorem runEvents_show_count (p : LoopParams) (es : List Event) (s : LoopState) :
    ((runEvents p s es).2).count Action.showWindow =
      if s.initial_render then
        min 1 (((runEvents p s es).2).countP Action.isPaintStart)
      else 0 := by
  induction es generalizing s with
  | nil => simp [runEvents]
  | cons e es ih =>
    simp only [runEvents]
    split
    · have hs := handleEvent_show_count p s e
      have hp := handleEvent_paint_countP p s e
      have hir := handleEvent_initial_render p s e
      simp only [List.count_append, List.countP_append, hs, hp, ih, hir]
      by_cases he : e = Event.redrawRequested <;>
        by_cases h2 : s.initial_render = true <;>
        simp_all
    · simp

/-- C2 counterexample: in the run in which the first paint's
`renderer.render` fails, the loop still calls the OS show primitive
`ShowWindow` although no render was ever submitted successfully and no
buffer swap ever completed — the window is shown without any successful
paint phase having completed. -/
theorem C2_shown_despite_failed_paint :
    Action.showWindow ∈ (runEvents renderFailParams initState
        [Event.mainEventsCleared, Event.redrawRequested]).2 ∧
    Action.renderSubmit true ∉ (runEvents renderFailParams initState
        [Event.mainEventsCleared, Event.redrawRequested]).2 ∧
    Action.swapBuffers true ∉ (runEvents renderFailParams initState
        [Event.mainEventsCleared, Event.redrawRequested]).2 := by
  decide

/-- C2 (amended): for every run of the loop from its entry state,
`ShowWindow` is invoked exactly once as soon as at least one paint phase is
processed — on the first paint whether or not that paint succeeds — and is
never invoked again (in particular the core never calls it to hide the
window, there being no hide call in the loop at all). -/
theorem C2_shown_once_on_first_paint (p : LoopParams) (es : List Event) :
    ((runEvents p initState es).2).count Action.showWindow =
      min 1 (((runEvents p initState es).2).countP Action.isPaintStart) := by
  have h := runEvents_show_count p es initState
  simpa [initState] using h

/-- C4 counterexample: in the frame dispatch of `MainEventsCleared` under a
well-behaved environment, both the input delivery and the activation
toggle occur, but the activation toggle does NOT precede the input
delivery — `input_system.update` runs first. -/
theorem C4_input_delivered_first :
    Action.inputUpdate ∈ (handleEvent okParams initState Event.mainEventsCleared).2 ∧
    Action.activeTrackerUpdate ∈
      (handleEvent okParams initState Event.mainEventsCleared).2 ∧
    ¬ activationPrecedesInput (handleEvent okParams initState Event.mainEventsCleared).2 := by
  refine ⟨by decide, by decide, ?_⟩
  unfold activationPrecedesInput
  decide

/-- C4 (amended): in every `MainEventsCleared` dispatch whose
`prepare_frame` succeeds, the calls are issued in the order: input
delivery (`InputSystem::update`), then the activation toggle
(`OverlayActiveTracker::update` with its OS calls), then the target-window
tracker update, then the update hook, then — only when the hook returned
true — the redraw request. -/
theorem C4_activation_after_input (p : LoopParams) (s : LoopState)
    (h : p.prepareFail s.frameCount = false) :
    (handleEvent p s Event.mainEventsCleared).2 =
      [Action.prepareFrame true, Action.inputUpdate, Action.activeTrackerUpdate] ++
        (s.tracker.update s.exStyle (p.ioSample s.frameCount)).2.2 ++
        [Action.windowTrackerUpdate, Action.updateHookCall (p.updateHook s.frameCount)] ++
        (if p.updateHook s.frameCount then [Action.requestRedraw] else []) := by
  simp only [handleEvent, h]
  by_cases hu : p.updateHook s.frameCount = true <;> simp [hu]

/-- C4 witness: the amended ordering evaluated in the well-behaved
environment at the entry state. -/
theorem C4_activation_after_input_witness :
    okParams.prepareFail initState.frameCount = false ∧
    (handleEvent okParams initState Event.mainEventsCleared).2 =
      [Action.prepareFrame true, Action.inputUpdate, Action.activeTrackerUpdate] ++
        (initState.tracker.update initState.exStyle
          (okParams.ioSample initState.frameCount)).2.2 ++
        [Action.windowTrackerUpdate,
          Action.updateHookCall (okParams.updateHook initState.frameCount)] ++
        (if okParams.updateHook initState.frameCount then [Action.requestRedraw] else []) :=
  ⟨rfl, C4_activation_after_input okParams initState rfl⟩

/-- C5: in every `RedrawRequested` dispatch in which the backend render
call fails or the buffer-swap call fails, the control flow is set to exit
for that cycle even though the render hook returned true, and the failure
is logged. -/
theorem C5_backend_failure_forces_exit (p : LoopParams) (s : LoopState)
    (hhook : p.renderHook s.paintCount = true)
    (hfail : p.renderFail s.paintCount = true ∨ p.swapFail s.paintCount = true) :
    ((handleEvent p s Event.redrawRequested).1).control_flow = ControlFlow.exit ∧
    Action.logError ∈ (handleEvent p s Event.redrawRequested).2 := by
  simp only [handleEvent]
  by_cases hr : p.renderFail s.paintCount = true
  · simp [hr]
  · rcases hfail with h | h
    · exact absurd h hr
    · simp [hr, h]

/-- C5 witness: the first paint of the render-failure environment forces
exit and logs, although the render hook returned true. -/
theorem C5_backend_failure_forces_exit_witness :
    renderFailParams.renderHook initState.paintCount = true ∧
    (renderFailParams.renderFail initState.paintCount = true ∨
      renderFailParams.swapFail initState.paintCount = true) ∧
    ((handleEvent renderFailParams initState Event.redrawRequested).1).control_flow =
      ControlFlow.exit ∧
    Action.logError ∈ (handleEvent renderFailParams initState Event.redrawRequested).2 :=
  ⟨rfl, Or.inl rfl,
    (C5_backend_failure_forces_exit renderFailParams initState rfl (Or.inl rfl)).1,
    (C5_backend_failure_forces_exit renderFailParams initState rfl (Or.inl rfl)).2⟩

/-- C6: in every `MainEventsCleared` dispatch whose `prepare_frame`
succeeds and whose update hook returns false, the loop exits cleanly (the
control flow is `Exit`, not the error exit `ExitWithCode 1`) and no redraw
request is issued in that dispatch. -/
theorem C6_update_false_clean_exit (p : LoopParams) (s : LoopState)
    (hprep : p.prepareFail s.frameCount = false)
    (hupd : p.updateHook s.frameCount = false) :
    ((handleEvent p s Event.mainEventsCleared).1).control_flow = ControlFlow.exit ∧
    Action.requestRedraw ∉ (handleEvent p s Event.mainEventsCleared).2 := by
  constructor
  · simp [handleEvent, hprep, hupd]
  · simp [handleEvent, hprep, hupd, update_no_requestRedraw]

/-- C6 witness: the stop-requesting environment evaluated at the entry
state. -/
theorem C6_update_false_clean_exit_witness :
    updateStopParams.prepareFail initState.frameCount = false ∧
    updateStopParams.updateHook initState.frameCount = false ∧
    ((handleEvent updateStopParams initState Event.mainEventsCleared).1).control_flow =
      ControlFlow.exit ∧
    Action.requestRedraw ∉ (handleEvent updateStopParams initState Event.mainEventsCleared).2 :=
  ⟨rfl, rfl,
    (C6_update_false_clean_exit updateStopParams initState rfl rfl).1,
    (C6_update_false_clean_exit updateStopParams initState rfl rfl).2⟩

end Overlay

namespace Overlay

/-- C7: when the target window exists but the host has neither a primary
monitor nor any available monitor, `init` fails with `NoMonitorAvailable`
and never reaches the `Display::new` call that creates the window; when a
monitor was chosen and `Display::new` fails, `init` fails with
`DisplayError` carrying the backend's error; and on every environment the
display/window creation is attempted at most once — there is no retry. -/
theorem C7_init_failure_modes (env : InitEnv) (m : Nat) :
    (env.targetWindowFound = true → env.primaryMonitor = none →
      env.availableMonitors = [] →
      (init env).1 = Except.error OverlayError.noMonitorAvailable ∧
      ((init env).2).countP InitAction.isCreateDisplay = 0) ∧
    (env.targetWindowFound = true →
      (env.primaryMonitor <|> env.availableMonitors.head?) = some m →
      env.displayFails = true →
      (init env).1 = Except.error (OverlayError.displayError env.displayErrCode)) ∧
    ((init env).2).countP InitAction.isCreateDisplay ≤ 1 := by
  refine ⟨?_, ?_, ?_⟩
  · intro h1 h2 h3
    simp [init, WindowTracker.new, h1, h2, h3, InitAction.isCreateDisplay]
  · intro h1 h2 h3
    simp [init, WindowTracker.new, h1, h2, h3]
  · by_cases h1 : env.targetWindowFound = true
    · rcases horelse : (env.primaryMonitor <|> env.availableMonitors.head?) with _ | m0
      · simp [init, WindowTracker.new, h1, horelse, InitAction.isCreateDisplay]
      · by_cases hd : env.displayFails = true <;>
          by_cases hc : env.clipboardFails = true <;>
          by_cases hw : env.dwmFails = true <;>
          by_cases hr : env.rendererFails = true <;>
          simp [init, WindowTracker.new, h1, horelse, hd, hc, hw, hr,
            InitAction.isCreateDisplay, List.countP_append]
    · simp [init, WindowTracker.new, h1, InitAction.isCreateDisplay]

/-- C7 witness: the no-monitor environment fails with `NoMonitorAvailable`
without attempting display creation, and the display-failure environment
fails with `DisplayError 7`. -/
theorem C7_init_failure_modes_witness :
    (init noMonitorEnv).1 = Except.error OverlayError.noMonitorAvailable ∧
    ((init noMonitorEnv).2).countP InitAction.isCreateDisplay = 0 ∧
    (init displayFailEnv).1 = Except.error (OverlayError.displayError 7) :=
  ⟨((C7_init_failure_modes noMonitorEnv 0).1 rfl rfl rfl).1,
   ((C7_init_failure_modes noMonitorEnv 0).1 rfl rfl rfl).2,
   (C7_init_failure_modes displayFailEnv 0).2.1 rfl rfl rfl⟩

/-- C8: when no window with the target title exists, `init` fails with the
NotFound-class error of the Target Window Tracker constructor, and its
trace holds only that failed constructor call — no event loop, window or
graphics context was created. -/
theorem C8_missing_target_fails_first (env : InitEnv)
    (h : env.targetWindowFound = false) :
    (init env).1 = Except.error OverlayError.windowNotFound ∧
    (init env).2 = [InitAction.windowTrackerNew false] := by
  simp [init, WindowTracker.new, h]

/-- C8 witness: the environment whose target window is absent. -/
theorem C8_missing_target_fails_first_witness :
    noTargetEnv.targetWindowFound = false ∧
    (init noTargetEnv).1 = Except.error OverlayError.windowNotFound ∧
    (init noTargetEnv).2 = [InitAction.windowTrackerNew false] :=
  ⟨rfl, (C8_missing_target_fails_first noTargetEnv rfl).1,
    (C8_missing_target_fails_first noTargetEnv rfl).2⟩

/-- C10: `show_error_message` is total: for every title and message byte
string — including ones holding an interior NUL — it never panics and the
message box is displayed, substituting the `"[[ NulError ]]"` placeholder
for any argument that cannot become a C string. -/
theorem C10_show_error_message_total (title message : List Nat) :
    show_error_message title message =
      some { text := (if 0 ∈ message then nulErrorPlaceholder else message) ++ [0]
             caption := (if 0 ∈ title then nulErrorPlaceholder else title) ++ [0]
             flags := MB_ICONERROR ||| MB_OK } := by
  have hnp : (0 : Nat) ∉ nulErrorPlaceholder := by decide
  by_cases ht : (0 : Nat) ∈ title <;> by_cases hm : (0 : Nat) ∈ message <;>
    simp [show_error_message, cstringNew, Option.orElse, ht, hm, hnp]

end Overlay
